import Mathlib

/-!
Verification development for the 3d-product-viewer repository.

Part 1 models the InteractionManager of src/three/interaction.js as a
shallow embedding: parts are identified by natural numbers, the per-mesh
mutable data (material, userData.originalMaterial, userData.isPulsing,
userData.pulseTime, scale-tween target) is a record, and the manager
state carries the hovered/selected slots, the highlighted set, the
cursor hint and the list of onPartSelect callback invocations.

Scale tweens are abstracted to their target value (the source
interpolates wall-clock time toward the target; no claim reads an
intermediate scale value, and a new tween on the same mesh supersedes
the old one, last-writer-wins).  The requestAnimationFrame pulse loop of
animatePulse is modelled by counting the scheduled pulse continuations
of a mesh (pendingPulse) together with the userData.isPulsing flag and
userData.pulseTime; one display frame runs every scheduled continuation
once (pulseFrame).

Part 2 models the CameraAnimator of src/three/cameraAnimation.js over
real numbers, with Math.atan2 rendered through Complex.arg.
-/

/-- Materials: the per-part base materials created by the scene builder,
and the two feedback materials of createFeedbackMaterials.  A clone of a
feedback material is modelled by the same value (clone identity is never
observed by the code). -/
inductive Material
  | base (nm : String)
  | hoverFeedback
  | selectedFeedback
deriving DecidableEq, Repr

/-- The mutable data the interaction code keeps on one mesh:
material, userData.originalMaterial, the target of the last
animateScale tween, userData.isPulsing, userData.pulseTime, and the
number of scheduled requestAnimationFrame pulse continuations. -/
structure MeshData where
  material : Material
  originalMaterial : Option Material
  scaleTarget : ℚ
  isPulsing : Bool
  pulseTime : ℚ
  pendingPulse : ℕ
deriving DecidableEq, Repr

/-- State of the InteractionManager: hovered and selected slots,
per-part mesh data, the highlightedMeshes set (as a membership
function), the cursor hint last written to the canvas, and the list of
parts passed to the onPartSelect callback, in order. -/
structure IState where
  hoveredPart : Option ℕ
  selectedPart : Option ℕ
  meshes : ℕ → MeshData
  highlighted : ℕ → Bool
  cursor : String
  emitted : List ℕ

/-- Update the mesh data of one part. -/
def updMesh (s : IState) (p : ℕ) (f : MeshData → MeshData) : IState :=
  { s with meshes := fun q => if q = p then f (s.meshes q) else s.meshes q }

/-- animateScale: starts a scale tween on the mesh toward the target;
a new tween supersedes any in-flight one, so only the target is kept. -/
def animateScale (s : IState) (p : ℕ) (target : ℚ) : IState :=
  updMesh s p (fun m => { m with scaleTarget := target })

/-- animatePulse: sets userData.isPulsing, resets userData.pulseTime to
0, then the pulse body runs once synchronously (the flag it just set is
true, so pulseTime becomes 0.1) and schedules one more
requestAnimationFrame continuation. -/
def animatePulse (s : IState) (p : ℕ) : IState :=
  updMesh s p (fun m =>
    { m with isPulsing := true, pulseTime := 1/10,
             pendingPulse := m.pendingPulse + 1 })

/-- stopPulse: clears userData.isPulsing. -/
def stopPulse (s : IState) (p : ℕ) : IState :=
  updMesh s p (fun m => { m with isPulsing := false })

/-- One display frame for the pulse loops of one mesh: every scheduled
continuation checks userData.isPulsing; when false it returns without
rescheduling (the loop dies), when true it advances pulseTime by 0.1
and reschedules itself. -/
def pulseFrame (m : MeshData) : MeshData :=
  if m.isPulsing then
    { m with pulseTime := m.pulseTime + m.pendingPulse * (1/10) }
  else
    { m with pendingPulse := 0 }

/-- One display frame for all meshes. -/
def frameStep (s : IState) : IState :=
  { s with meshes := fun q => pulseFrame (s.meshes q) }

/-- clearHover, from interaction.js lines 148-165: when a part is
hovered and it is not the selected part, restore the recorded original
material (when one is recorded), tween the scale back to 1.0 and drop
the mesh from highlightedMeshes; in every case the hovered slot becomes
empty. -/
def clearHover (s : IState) : IState :=
  let s1 :=
    match s.hoveredPart with
    | some hp =>
      if s.selectedPart ≠ some hp then
        let s2 :=
          match (s.meshes hp).originalMaterial with
          | some om => updMesh s hp (fun m => { m with material := om })
          | none => s
        let s3 := animateScale s2 hp 1
        { s3 with highlighted := fun q => if q = hp then false else s3.highlighted q }
      else s
    | none => s
  { s1 with hoveredPart := none }

/-- handleHover, from interaction.js lines 122-143: clear the previous
hover, set the new hovered part, unconditionally record the current
material as original, swap in a clone of the hover material, tween the
scale to 1.05, add the mesh to highlightedMeshes and invoke
onPartSelect with the part. -/
def handleHover (s : IState) (p : ℕ) : IState :=
  let s1 := clearHover s
  let s2 := { s1 with hoveredPart := some p }
  let s3 := updMesh s2 p (fun m => { m with originalMaterial := some m.material })
  let s4 := updMesh s3 p (fun m => { m with material := Material.hoverFeedback })
  let s5 := animateScale s4 p (105/100)
  let s6 := { s5 with highlighted := fun q => (q = p : Bool) || s5.highlighted q }
  { s6 with emitted := s6.emitted ++ [p] }

/-- clearSelection, from interaction.js lines 200-225: when a part is
selected, restore the recorded original material only when the hovered
part is not that same part, tween the scale back to 1.0, stop the pulse
flag, and drop the mesh from highlightedMeshes only when the hovered
part is not that same part; in every case the selected slot becomes
empty. -/
def clearSelection (s : IState) : IState :=
  let s1 :=
    match s.selectedPart with
    | some sp =>
      let s2 :=
        if s.hoveredPart ≠ some sp then
          match (s.meshes sp).originalMaterial with
          | some om => updMesh s sp (fun m => { m with material := om })
          | none => s
        else s
      let s3 := animateScale s2 sp 1
      let s4 := stopPulse s3 sp
      if s.hoveredPart ≠ some sp then
        { s4 with highlighted := fun q => if q = sp then false else s4.highlighted q }
      else s4
    | none => s
  { s1 with selectedPart := none }

/-- handleSelection, from interaction.js lines 171-195: clear the
previous selection, set the new selected part, record the current
material as original only when none is recorded yet, swap in a clone of
the selected material, tween the scale to 1.1, start the pulse loop,
add the mesh to highlightedMeshes and invoke onPartSelect with the
part. -/
def handleSelection (s : IState) (p : ℕ) : IState :=
  let s1 := clearSelection s
  let s2 := { s1 with selectedPart := some p }
  let s3 :=
    if (s2.meshes p).originalMaterial = none then
      updMesh s2 p (fun m => { m with originalMaterial := some m.material })
    else s2
  let s4 := updMesh s3 p (fun m => { m with material := Material.selectedFeedback })
  let s5 := animateScale s4 p (11/10)
  let s6 := animatePulse s5 p
  let s7 := { s6 with highlighted := fun q => (q = p : Bool) || s6.highlighted q }
  { s7 with emitted := s7.emitted ++ [p] }

/-- handleMouseMove, from interaction.js lines 57-88.  The ray cast of
THREE.Raycaster.intersectObjects over the part meshes is abstracted to
its result: the list of hit part ids nearest first (empty when nothing
is hit, in particular whenever the part list is empty).  When a part is
hit and differs from the hovered part a new hover is established, and
the cursor becomes pointer; when nothing is hit an existing hover is
cleared and the cursor becomes default. -/
def handleMouseMove (s : IState) (parts : List ℕ) (intersects : List ℕ) : IState :=
  match intersects with
  | m :: _ =>
    let s1 :=
      match parts.find? (fun q => q == m) with
      | some p => if s.hoveredPart ≠ some p then handleHover s p else s
      | none => s
    { s1 with cursor := "pointer" }
  | [] =>
    let s1 := if s.hoveredPart ≠ none then clearHover s else s
    { s1 with cursor := "default" }

/-- handleClick, from interaction.js lines 95-116: same abstracted ray
cast; a hit part is selected, no hit clears the selection. -/
def handleClick (s : IState) (parts : List ℕ) (intersects : List ℕ) : IState :=
  match intersects with
  | m :: _ =>
    match parts.find? (fun q => q == m) with
    | some p => handleSelection s p
    | none => s
  | [] => clearSelection s

/-- A fresh interaction state over parts whose meshes carry their base
material, no recorded original, scale 1, no pulse: the situation right
after scene build. -/
def freshIState : IState :=
  { hoveredPart := none
    selectedPart := none
    meshes := fun _ =>
      { material := Material.base "part", originalMaterial := none,
        scaleTarget := 1, isPulsing := false, pulseTime := 0, pendingPulse := 0 }
    highlighted := fun _ => false
    cursor := "default"
    emitted := [] }

/-- A 3-component vector, standing for THREE.Vector3. -/
structure Vec3 where
  x : ℝ
  y : ℝ
  z : ℝ

/-- Math.atan2 y x, rendered through the argument of the complex number
x + y i (both have range (-pi, pi] and agree away from the origin). -/
noncomputable def atan2 (y x : ℝ) : ℝ := Complex.arg ⟨x, y⟩

/-- State of the CameraAnimator of src/three/cameraAnimation.js: the
camera position and the orbit-controls target it mutates, plus the
fields set by the constructor.  The vertical and radial motion
parameters are the constants of the constructor (amplitude 0.5 and
frequency 0.3 vertical, amplitude 1 and frequency 0.2 radial) and are
inlined in update. -/
structure CamAnim where
  cameraPos : Vec3
  controlsTarget : Vec3
  isAutoRotating : Bool
  rotationSpeed : ℝ
  radius : ℝ
  height : ℝ
  angle : ℝ
  initialPosition : Vec3
  initialTarget : Vec3
  time : ℝ

/-- The constructor: auto-rotation on, speed 0.5, radius 8, height 3,
angle 0, time 0, and the initial pose captured from the camera position
at construction; the initial target is the origin. -/
noncomputable def mkCameraAnimator (cameraPos controlsTarget : Vec3) : CamAnim :=
  { cameraPos := cameraPos
    controlsTarget := controlsTarget
    isAutoRotating := true
    rotationSpeed := 1/2
    radius := 8
    height := 3
    angle := 0
    initialPosition := cameraPos
    initialTarget := ⟨0, 0, 0⟩
    time := 0 }

/-- update, from cameraAnimation.js lines 29-55: a no-op while
isAutoRotating is false; otherwise advances time by the clock delta,
advances angle by rotationSpeed (degrees per second) converted to
radians, computes the breathing radius and height, and places the
camera on the orbit aiming the controls target at (0, 1, 0). -/
noncomputable def CamAnim.update (s : CamAnim) (delta : ℝ) : CamAnim :=
  if s.isAutoRotating then
    let time := s.time + delta
    let angle := s.angle + s.rotationSpeed * delta * Real.pi / 180
    let dynamicRadius := s.radius + Real.sin (time * (2/10)) * 1
    let dynamicHeight := s.height + Real.cos (time * (3/10)) * (1/2)
    { s with time := time, angle := angle,
             cameraPos := ⟨Real.cos angle * dynamicRadius, dynamicHeight,
                           Real.sin angle * dynamicRadius⟩,
             controlsTarget := ⟨0, 1, 0⟩ }
  else s

/-- pauseAutoRotation. -/
noncomputable def CamAnim.pauseAutoRotation (s : CamAnim) : CamAnim :=
  { s with isAutoRotating := false }

/-- syncAngleWithPosition, from cameraAnimation.js lines 81-88: angle,
radius and height are recomputed from the current camera position by
inverse trigonometry. -/
noncomputable def CamAnim.syncAngleWithPosition (s : CamAnim) : CamAnim :=
  { s with angle := atan2 s.cameraPos.z s.cameraPos.x,
           radius := Real.sqrt (s.cameraPos.x * s.cameraPos.x +
                                s.cameraPos.z * s.cameraPos.z),
           height := s.cameraPos.y }

/-- resumeAutoRotation: turns auto-rotation back on and resynchronizes
the orbit parameters from the camera position. -/
noncomputable def CamAnim.resumeAutoRotation (s : CamAnim) : CamAnim :=
  CamAnim.syncAngleWithPosition { s with isAutoRotating := true }

/-- The easing curve of animateToPosition (ease-in-out, cubic based). -/
noncomputable def easeInOutCubic (p : ℝ) : ℝ :=
  if p < 1/2 then 2 * p * p else 1 - (-2 * p + 2) ^ 3 / 2

/-- THREE.Vector3.lerpVectors. -/
noncomputable def lerpVec (a b : Vec3) (t : ℝ) : Vec3 :=
  ⟨a.x + (b.x - a.x) * t, a.y + (b.y - a.y) * t, a.z + (b.z - a.z) * t⟩

/-- The final frame of animateToPosition (cameraAnimation.js lines
96-133) and its completion branch: at progress 1 the camera position
and controls target are the eased interpolation from the start pose
captured at call time, and then syncAngleWithPosition runs. -/
noncomputable def CamAnim.animateToPositionComplete
    (s : CamAnim) (targetPosition targetLookAt : Vec3) : CamAnim :=
  let startPosition := s.cameraPos
  let startLookAt := s.controlsTarget
  let eased := easeInOutCubic 1
  CamAnim.syncAngleWithPosition
    { s with cameraPos := lerpVec startPosition targetPosition eased,
             controlsTarget := lerpVec startLookAt targetLookAt eased }

/-- reset, from cameraAnimation.js lines 73-79: resets angle, time,
radius and height to their defaults and starts the fly-to toward the
captured initial pose. -/
noncomputable def CamAnim.reset (s : CamAnim) : CamAnim :=
  { s with angle := 0, time := 0, radius := 8, height := 3 }

/-- The state after reset and after the fly-to it starts has run to
completion. -/
noncomputable def CamAnim.resetComplete (s : CamAnim) : CamAnim :=
  CamAnim.animateToPositionComplete (CamAnim.reset s)
    s.initialPosition s.initialTarget

/-- setRotationSpeed. -/
noncomputable def CamAnim.setRotationSpeed (s : CamAnim) (speed : ℝ) : CamAnim :=
  { s with rotationSpeed := speed }

/-- The record returned by getState. -/
structure MotionState where
  isAutoRotating : Bool
  rotationSpeed : ℝ
  radius : ℝ
  height : ℝ
  angle : ℝ
  time : ℝ

/-- getState, from cameraAnimation.js lines 163-172. -/
noncomputable def CamAnim.getState (s : CamAnim) : MotionState :=
  ⟨s.isAutoRotating, s.rotationSpeed, s.radius, s.height, s.angle, s.time⟩

/-- The JavaScript expression x or-else d on numbers: d when x is 0
(falsy), x otherwise. -/
noncomputable def jsOr (x d : ℝ) : ℝ := if x = 0 then d else x

/-- setState, from cameraAnimation.js lines 178-185: every field is
taken through the JavaScript or-else default, so a falsy (zero) number
is replaced by its default. -/
noncomputable def CamAnim.setState (s : CamAnim) (st : MotionState) : CamAnim :=
  { s with isAutoRotating := st.isAutoRotating || false,
           rotationSpeed := jsOr st.rotationSpeed (1/2),
           radius := jsOr st.radius 8,
           height := jsOr st.height 3,
           angle := jsOr st.angle 0,
           time := jsOr st.time 0 }

theorem clearHover_hoveredPart (s : IState) : (clearHover s).hoveredPart = none := rfl

theorem clearHover_selectedPart (s : IState) : (clearHover s).selectedPart = s.selectedPart := by
  unfold clearHover
  cases hs : s.hoveredPart with
  | none => rfl
  | some hp =>
    by_cases hsel : s.selectedPart = some hp
    · simp [hsel]
    · cases hom : (s.meshes hp).originalMaterial <;>
        simp [hsel, hom, animateScale, updMesh]

theorem clearHover_emitted (s : IState) : (clearHover s).emitted = s.emitted := by
  unfold clearHover
  cases hs : s.hoveredPart with
  | none => rfl
  | some hp =>
    by_cases hsel : s.selectedPart = some hp
    · simp [hsel]
    · cases hom : (s.meshes hp).originalMaterial <;>
        simp [hsel, hom, animateScale, updMesh]

theorem clearHover_meshes_of_selected (s : IState) (p : ℕ)
    (h : s.hoveredPart = some p) (hsel : s.selectedPart = some p) :
    (clearHover s).meshes = s.meshes := by
  unfold clearHover
  rw [h]
  simp [hsel]

theorem clearHover_restore (s : IState) (p : ℕ) (om : Material)
    (h : s.hoveredPart = some p) (hsel : s.selectedPart ≠ some p)
    (hom : (s.meshes p).originalMaterial = some om) :
    ((clearHover s).meshes p).material = om := by
  unfold clearHover
  rw [h]
  simp [hsel, hom, animateScale, updMesh]

theorem clearHover_material_change (s : IState) (q : ℕ)
    (h : ((clearHover s).meshes q).material ≠ (s.meshes q).material) :
    s.hoveredPart = some q ∧ s.selectedPart ≠ some q := by
  unfold clearHover at h
  cases hs : s.hoveredPart with
  | none => rw [hs] at h; simp at h
  | some hp =>
    rw [hs] at h
    by_cases hsel : s.selectedPart = some hp
    · simp [hsel] at h
    · cases hom : (s.meshes hp).originalMaterial with
      | none =>
        by_cases hq : q = hp <;> simp [hsel, hom, animateScale, updMesh, hq] at h
      | some om =>
        by_cases hq : q = hp
        · subst hq; exact ⟨rfl, hsel⟩
        · simp [hsel, hom, animateScale, updMesh, hq] at h

theorem clearSelection_selectedPart (s : IState) : (clearSelection s).selectedPart = none := rfl

theorem clearSelection_hoveredPart (s : IState) : (clearSelection s).hoveredPart = s.hoveredPart := by
  unfold clearSelection
  cases hs : s.selectedPart with
  | none => rfl
  | some sp =>
    by_cases hh : s.hoveredPart = some sp <;>
      cases hom : (s.meshes sp).originalMaterial <;>
        simp [hh, hom, animateScale, stopPulse, updMesh]

theorem clearSelection_emitted (s : IState) : (clearSelection s).emitted = s.emitted := by
  unfold clearSelection
  cases hs : s.selectedPart with
  | none => rfl
  | some sp =>
    by_cases hh : s.hoveredPart = some sp <;>
      cases hom : (s.meshes sp).originalMaterial <;>
        simp [hh, hom, animateScale, stopPulse, updMesh]

theorem clearSelection_originalMaterial (s : IState) (q : ℕ) :
    ((clearSelection s).meshes q).originalMaterial = (s.meshes q).originalMaterial := by
  unfold clearSelection
  cases hs : s.selectedPart with
  | none => rfl
  | some sp =>
    by_cases hh : s.hoveredPart = some sp <;>
      cases hom : (s.meshes sp).originalMaterial <;>
        by_cases hq : q = sp <;>
          simp [hh, hom, hq, animateScale, stopPulse, updMesh]

theorem clearSelection_material_of_hovered (s : IState) (p : ℕ)
    (hsel : s.selectedPart = some p) (hh : s.hoveredPart = some p) :
    ((clearSelection s).meshes p).material = (s.meshes p).material := by
  unfold clearSelection
  rw [hsel]
  simp [hh, animateScale, stopPulse, updMesh]

theorem clearSelection_material_change (s : IState) (q : ℕ)
    (h : ((clearSelection s).meshes q).material ≠ (s.meshes q).material) :
    s.selectedPart = some q ∧ s.hoveredPart ≠ some q := by
  unfold clearSelection at h
  cases hs : s.selectedPart with
  | none => rw [hs] at h; simp at h
  | some sp =>
    rw [hs] at h
    by_cases hh : s.hoveredPart = some sp
    · by_cases hq : q = sp <;> simp [hh, hq, animateScale, stopPulse, updMesh] at h
    · cases hom : (s.meshes sp).originalMaterial with
      | none =>
        by_cases hq : q = sp <;> simp [hh, hom, hq, animateScale, stopPulse, updMesh] at h
      | some om =>
        by_cases hq : q = sp
        · subst hq; exact ⟨rfl, hh⟩
        · simp [hh, hom, hq, animateScale, stopPulse, updMesh] at h

theorem handleHover_hoveredPart (s : IState) (p : ℕ) :
    (handleHover s p).hoveredPart = some p := rfl

theorem handleHover_selectedPart (s : IState) (p : ℕ) :
    (handleHover s p).selectedPart = s.selectedPart := by
  simp [handleHover, animateScale, updMesh, clearHover_selectedPart]

theorem handleHover_emitted (s : IState) (p : ℕ) :
    (handleHover s p).emitted = s.emitted ++ [p] := by
  simp [handleHover, animateScale, updMesh, clearHover_emitted]

theorem handleHover_originalMaterial (s : IState) (p : ℕ) :
    ((handleHover s p).meshes p).originalMaterial =
      some (((clearHover s).meshes p).material) := by
  simp [handleHover, animateScale, updMesh]

theorem handleHover_material (s : IState) (p : ℕ) :
    ((handleHover s p).meshes p).material = Material.hoverFeedback := by
  simp [handleHover, animateScale, updMesh]

theorem handleSelection_selectedPart (s : IState) (p : ℕ) :
    (handleSelection s p).selectedPart = some p := by
  simp [handleSelection, animatePulse, animateScale, updMesh]
  split <;> rfl

theorem handleSelection_hoveredPart (s : IState) (p : ℕ) :
    (handleSelection s p).hoveredPart = s.hoveredPart := by
  simp [handleSelection, animatePulse, animateScale, updMesh, clearSelection_hoveredPart]
  split <;> rfl

theorem handleSelection_emitted (s : IState) (p : ℕ) :
    (handleSelection s p).emitted = s.emitted ++ [p] := by
  simp [handleSelection, animatePulse, animateScale, updMesh, clearSelection_emitted]
  split <;> rfl

theorem handleSelection_material (s : IState) (p : ℕ) :
    ((handleSelection s p).meshes p).material = Material.selectedFeedback := by
  simp [handleSelection, animatePulse, animateScale, updMesh]

theorem handleSelection_originalMaterial_keep (s : IState) (p : ℕ) (om : Material)
    (hom : (s.meshes p).originalMaterial = some om) :
    ((handleSelection s p).meshes p).originalMaterial = some om := by
  have h1 : ((clearSelection s).meshes p).originalMaterial = some om := by
    rw [clearSelection_originalMaterial]; exact hom
  simp [handleSelection, animatePulse, animateScale, updMesh, h1]

theorem handleMouseMove_selectedPart (s : IState) (parts intersects : List ℕ) :
    (handleMouseMove s parts intersects).selectedPart = s.selectedPart := by
  cases intersects with
  | nil =>
    by_cases hh : s.hoveredPart ≠ none <;>
      simp [handleMouseMove, hh, clearHover_selectedPart]
  | cons m rest =>
    cases hf : parts.find? (fun q => q == m) with
    | none => simp [handleMouseMove, hf]
    | some p =>
      by_cases hq : s.hoveredPart ≠ some p <;>
        simp [handleMouseMove, hf, hq, handleHover_selectedPart]

theorem handleMouseMove_nil_hoveredPart (s : IState) (parts : List ℕ) :
    (handleMouseMove s parts []).hoveredPart = none := by
  by_cases hh : s.hoveredPart ≠ none
  · simp [handleMouseMove, hh, clearHover_hoveredPart]
  · simp at hh; simp [handleMouseMove, hh]

theorem handleMouseMove_nil_cursor (s : IState) (parts : List ℕ) :
    (handleMouseMove s parts []).cursor = "default" := rfl

theorem handleMouseMove_nil_emitted (s : IState) (parts : List ℕ) :
    (handleMouseMove s parts []).emitted = s.emitted := by
  by_cases hh : s.hoveredPart ≠ none <;>
    simp [handleMouseMove, hh, clearHover_emitted]

theorem handleMouseMove_nil_meshes_of_hovsel (s : IState) (parts : List ℕ) (p : ℕ)
    (hh : s.hoveredPart = some p) (hsel : s.selectedPart = some p) :
    (handleMouseMove s parts []).meshes = s.meshes := by
  have : s.hoveredPart ≠ none := by rw [hh]; exact Option.some_ne_none p
  simp [handleMouseMove, this]
  exact clearHover_meshes_of_selected s p hh hsel

theorem handleClick_nil (s : IState) (parts : List ℕ) :
    handleClick s parts [] = clearSelection s := rfl

/-- The state after a pointer move that hits part 0 of a fresh scene:
part 0 is hovered. -/
def wStateHover : IState := handleMouseMove freshIState [0] [0]

/-- The state after a pointer click that hits part 0 of a fresh scene:
part 0 is selected, nothing is hovered. -/
def wStateSelected : IState := handleClick freshIState [0] [0]

/-- The state after hovering part 0 and then clicking it: part 0 is
both hovered and selected. -/
def wStateHovSel : IState := handleClick wStateHover [0] [0]

/-- C2: when the hovered and the selected part coincide, clearing hover
leaves the mesh untouched and clearing selection leaves its material
untouched; whenever a clear does change a mesh material (writes the
recorded original back), afterwards neither the hover slot nor the
selection slot references that part; and selecting a hovered part and
then moving the pointer away leaves the selection feedback material on
the mesh. -/
theorem clear_hover_selection_no_stomp :
    ∀ (s : IState) (p : ℕ) (parts : List ℕ),
      (s.hoveredPart = some p → s.selectedPart = some p →
        (clearHover s).meshes p = s.meshes p ∧
        ((clearSelection s).meshes p).material = (s.meshes p).material) ∧
      (((clearHover s).meshes p).material ≠ (s.meshes p).material →
        (clearHover s).hoveredPart ≠ some p ∧ (clearHover s).selectedPart ≠ some p) ∧
      (((clearSelection s).meshes p).material ≠ (s.meshes p).material →
        (clearSelection s).hoveredPart ≠ some p ∧ (clearSelection s).selectedPart ≠ some p) ∧
      (s.hoveredPart = some p →
        ((handleMouseMove (handleSelection s p) parts []).meshes p).material =
          Material.selectedFeedback) := by
  intro s p parts
  refine ⟨?_, ?_, ?_, ?_⟩
  · intro hh hsel
    exact ⟨congrFun (clearHover_meshes_of_selected s p hh hsel) p,
           clearSelection_material_of_hovered s p hsel hh⟩
  · intro hch
    obtain ⟨h1, h2⟩ := clearHover_material_change s p hch
    refine ⟨?_, ?_⟩
    · simp [clearHover_hoveredPart]
    · rw [clearHover_selectedPart]; exact h2
  · intro hch
    obtain ⟨h1, h2⟩ := clearSelection_material_change s p hch
    refine ⟨?_, ?_⟩
    · rw [clearSelection_hoveredPart]; exact h2
    · simp [clearSelection_selectedPart]
  · intro hh
    have hh2 : (handleSelection s p).hoveredPart = some p := by
      rw [handleSelection_hoveredPart]; exact hh
    rw [handleMouseMove_nil_meshes_of_hovsel _ parts p hh2 (handleSelection_selectedPart s p)]
    exact handleSelection_material s p

/-- Witness for C2 at concrete states: part 0 hovered and selected
(clears change nothing visible), part 0 only hovered (clearing hover
does restore, and afterwards no slot references it), part 0 only
selected (same for clearing selection), and the select-then-move-away
scenario ends on the selection feedback material. -/
theorem clear_hover_selection_no_stomp_witness :
    ((clearHover wStateHovSel).meshes 0 = wStateHovSel.meshes 0 ∧
      ((clearSelection wStateHovSel).meshes 0).material = (wStateHovSel.meshes 0).material) ∧
    ((clearHover wStateHover).hoveredPart ≠ some 0 ∧
      (clearHover wStateHover).selectedPart ≠ some 0) ∧
    ((clearSelection wStateSelected).hoveredPart ≠ some 0 ∧
      (clearSelection wStateSelected).selectedPart ≠ some 0) ∧
    ((handleMouseMove (handleSelection wStateHovSel 0) [0] []).meshes 0).material =
      Material.selectedFeedback :=
  ⟨(clear_hover_selection_no_stomp wStateHovSel 0 [0]).1 (by decide) (by decide),
   (clear_hover_selection_no_stomp wStateHover 0 [0]).2.1 (by decide),
   (clear_hover_selection_no_stomp wStateSelected 0 [0]).2.2.1 (by decide),
   (clear_hover_selection_no_stomp wStateHovSel 0 [0]).2.2.2 (by decide)⟩

/-- C3 evaluated at the failing input: two clicks on part 0 of a fresh
scene leave two scheduled pulse continuations on its mesh (one click
leaves one), the pulsing flag is set, and a display frame keeps both
loops alive: the stop-then-restart inside handleSelection resets the
shared flag before the old continuation can observe it, so pulse loops
accumulate instead of staying unique. -/
theorem repeated_click_pulse_accumulates :
    ((handleClick wStateSelected [0] [0]).meshes 0).pendingPulse = 2 ∧
    (wStateSelected.meshes 0).pendingPulse = 1 ∧
    ((handleClick wStateSelected [0] [0]).meshes 0).isPulsing = true ∧
    ((frameStep (handleClick wStateSelected [0] [0])).meshes 0).pendingPulse = 2 ∧
    ((frameStep (handleClick wStateSelected [0] [0])).meshes 0).pulseTime =
      ((handleClick wStateSelected [0] [0]).meshes 0).pulseTime + 2 * (1/10) := by
  refine ⟨by decide, by decide, by decide, by decide, ?_⟩
  have hp : ((handleClick wStateSelected [0] [0]).meshes 0).isPulsing = true := by decide
  have hn : ((handleClick wStateSelected [0] [0]).meshes 0).pendingPulse = 2 := by decide
  show (pulseFrame ((handleClick wStateSelected [0] [0]).meshes 0)).pulseTime = _
  simp [pulseFrame, hp, hn]

/-- C5 as stated is false at a concrete input: with part 0 hovered, a
pointer move that hits nothing clears the hover slot (a transition of
the hovered part to none) yet the onPartSelect callback list is
unchanged, so no callback — neither with a Part nor with a none
value — accompanies the transition. -/
theorem clear_hover_emits_no_callback :
    wStateHover.hoveredPart = some 0 ∧
    (handleMouseMove wStateHover [0] []).hoveredPart = none ∧
    (handleMouseMove wStateHover [0] []).emitted = wStateHover.emitted := by
  decide

/-- C5 amended: the onPartSelect callback is invoked, with the newly
relevant part, exactly when a new hover or a new selection is
established; clearing hover or selection (in particular any pointer
move or click that hits nothing) never invokes the callback. -/
theorem callback_on_new_hover_or_selection_only :
    ∀ (s : IState) (p : ℕ) (parts : List ℕ),
      (handleHover s p).emitted = s.emitted ++ [p] ∧
      (handleSelection s p).emitted = s.emitted ++ [p] ∧
      (clearHover s).emitted = s.emitted ∧
      (clearSelection s).emitted = s.emitted ∧
      (handleMouseMove s parts []).emitted = s.emitted ∧
      (handleClick s parts []).emitted = s.emitted := by
  intro s p parts
  refine ⟨handleHover_emitted s p, handleSelection_emitted s p, clearHover_emitted s,
          clearSelection_emitted s, handleMouseMove_nil_emitted s parts, ?_⟩
  rw [handleClick_nil]; exact clearSelection_emitted s

/-- C8: a pointer event whose ray hits nothing (the empty intersection
list, which is in particular what an empty part list yields) makes a
pointer move clear any hover and set the cursor hint to default, and
makes a click clear the selection; all the handlers are total, so no
error can arise. -/
theorem no_hit_clears_and_defaults :
    ∀ (s : IState) (parts : List ℕ),
      (handleMouseMove s parts []).hoveredPart = none ∧
      (handleMouseMove s parts []).cursor = "default" ∧
      (handleClick s parts []).selectedPart = none ∧
      (handleMouseMove s [] []).hoveredPart = none ∧
      (handleClick s [] []).selectedPart = none := by
  intro s parts
  refine ⟨handleMouseMove_nil_hoveredPart s parts, handleMouseMove_nil_cursor s parts,
          ?_, handleMouseMove_nil_hoveredPart s [], ?_⟩ <;>
    rw [handleClick_nil, clearSelection_selectedPart]

/-- C9: establishing a hover overwrites the recorded original material
unconditionally with the material the mesh shows at that moment, while
establishing a selection preserves an already recorded original; in
consequence, the trace hover, click, move away, hover again on part 0
of a fresh scene records the selection feedback material as the
original material of its mesh. -/
theorem hover_overwrites_original_material :
    ∀ (s : IState) (p : ℕ) (om : Material),
      ((handleHover s p).meshes p).originalMaterial =
        some (((clearHover s).meshes p).material) ∧
      ((s.meshes p).originalMaterial = some om →
        ((handleSelection s p).meshes p).originalMaterial = some om) ∧
      ((handleMouseMove (handleMouseMove wStateHovSel [0] []) [0] [0]).meshes 0).originalMaterial =
        some Material.selectedFeedback := by
  intro s p om
  exact ⟨handleHover_originalMaterial s p,
         fun hom => handleSelection_originalMaterial_keep s p om hom, by decide⟩

/-- Witness for C9: with part 0 selected on a fresh scene its recorded
original is the base material, and re-selecting keeps that record. -/
theorem hover_overwrites_original_material_witness :
    ((handleSelection wStateSelected 0).meshes 0).originalMaterial =
      some (Material.base "part") :=
  (hover_overwrites_original_material wStateSelected 0 (Material.base "part")).2.1
    (by decide)

/-- C10: a pointer move never changes which part is selected, whatever
the interaction state, the part list and the intersection result. -/
theorem pointer_move_preserves_selection :
    ∀ (s : IState) (parts intersects : List ℕ),
      (handleMouseMove s parts intersects).selectedPart = s.selectedPart :=
  handleMouseMove_selectedPart

theorem easeInOutCubic_one : easeInOutCubic 1 = 1 := by
  unfold easeInOutCubic
  norm_num

theorem lerpVec_one (a b : Vec3) : lerpVec a b 1 = b := by
  cases a; cases b
  simp only [lerpVec, Vec3.mk.injEq]
  refine ⟨by ring, by ring, by ring⟩

theorem resetComplete_spec (s : CamAnim) :
    (CamAnim.resetComplete s).cameraPos = s.initialPosition ∧
    (CamAnim.resetComplete s).angle = atan2 s.initialPosition.z s.initialPosition.x ∧
    (CamAnim.resetComplete s).radius =
      Real.sqrt (s.initialPosition.x * s.initialPosition.x +
                 s.initialPosition.z * s.initialPosition.z) ∧
    (CamAnim.resetComplete s).height = s.initialPosition.y := by
  unfold CamAnim.resetComplete CamAnim.animateToPositionComplete
    CamAnim.syncAngleWithPosition CamAnim.reset
  simp [easeInOutCubic_one, lerpVec_one]

theorem sqrt_fifty_ne_eight : Real.sqrt 50 ≠ 8 := by
  intro h
  have h50 : Real.sqrt 50 ^ 2 = 50 := Real.sq_sqrt (by norm_num)
  rw [h] at h50
  norm_num at h50

theorem update_not_rotating (s : CamAnim) (dt : ℝ) (h : s.isAutoRotating = false) :
    s.update dt = s := by
  simp [CamAnim.update, h]

theorem update_rotationSpeed (s : CamAnim) (dt : ℝ) :
    (s.update dt).rotationSpeed = s.rotationSpeed := by
  unfold CamAnim.update
  by_cases h : s.isAutoRotating <;> simp [h]

theorem update_angle_mono (s : CamAnim) (dt : ℝ) (hdt : 0 ≤ dt)
    (hsp : 0 ≤ s.rotationSpeed) : s.angle ≤ (s.update dt).angle := by
  unfold CamAnim.update
  by_cases h : s.isAutoRotating
  · simp only [h, if_true]
    have hstep : 0 ≤ s.rotationSpeed * dt * Real.pi / 180 :=
      div_nonneg (mul_nonneg (mul_nonneg hsp hdt) Real.pi_pos.le) (by norm_num)
    simp
    linarith
  · simp [h]

theorem update_angle_strict (s : CamAnim) (dt : ℝ) (hdt : 0 < dt)
    (hsp : 0 < s.rotationSpeed) (h : s.isAutoRotating = true) :
    s.angle < (s.update dt).angle := by
  unfold CamAnim.update
  simp only [h, if_true]
  have hstep : 0 < s.rotationSpeed * dt * Real.pi / 180 :=
    div_pos (mul_pos (mul_pos hsp hdt) Real.pi_pos) (by norm_num)
  simp
  linarith

theorem foldl_update_angle_mono (dts : List ℝ) :
    ∀ s : CamAnim, 0 ≤ s.rotationSpeed → (∀ d ∈ dts, 0 ≤ d) →
      s.angle ≤ (dts.foldl CamAnim.update s).angle := by
  induction dts with
  | nil => intro s _ _; exact le_refl _
  | cons d rest ih =>
    intro s hsp hd
    rw [List.foldl_cons]
    calc s.angle ≤ (s.update d).angle :=
          update_angle_mono s d (hd d (by simp)) hsp
      _ ≤ _ := ih (s.update d) (by rw [update_rotationSpeed]; exact hsp)
          (fun x hx => hd x (by simp [hx]))

theorem jsOr_of_ne {x : ℝ} (d : ℝ) (h : x ≠ 0) : jsOr x d = x := if_neg h

theorem jsOr_zero_right (x : ℝ) : jsOr x 0 = x := by
  unfold jsOr
  split <;> simp_all

/-- C1 as stated is false at the pose the application constructs the
animator with (initScene places the camera at (5, 3, 5)): after reset
and the completed fly-to, syncAngleWithPosition has overwritten the
orbit parameters from the initial pose, so radius is the square root
of 50, not 8, and the claimed conjunction fails. -/
theorem reset_defaults_not_final :
    ¬((CamAnim.resetComplete (mkCameraAnimator ⟨5,3,5⟩ ⟨0,0,0⟩)).angle = 0 ∧
      (CamAnim.resetComplete (mkCameraAnimator ⟨5,3,5⟩ ⟨0,0,0⟩)).radius = 8 ∧
      (CamAnim.resetComplete (mkCameraAnimator ⟨5,3,5⟩ ⟨0,0,0⟩)).height = 3 ∧
      (CamAnim.resetComplete (mkCameraAnimator ⟨5,3,5⟩ ⟨0,0,0⟩)).cameraPos =
        (mkCameraAnimator ⟨5,3,5⟩ ⟨0,0,0⟩).initialPosition) := by
  intro h
  have hr := h.2.1
  have hspec := (resetComplete_spec (mkCameraAnimator ⟨5,3,5⟩ ⟨0,0,0⟩)).2.2.1
  rw [hspec] at hr
  have h50 : (mkCameraAnimator ⟨5,3,5⟩ ⟨0,0,0⟩).initialPosition.x *
        (mkCameraAnimator ⟨5,3,5⟩ ⟨0,0,0⟩).initialPosition.x +
      (mkCameraAnimator ⟨5,3,5⟩ ⟨0,0,0⟩).initialPosition.z *
        (mkCameraAnimator ⟨5,3,5⟩ ⟨0,0,0⟩).initialPosition.z = 50 := by
    norm_num [mkCameraAnimator]
  rw [h50] at hr
  exact sqrt_fifty_ne_eight hr

/-- C1 amended: reset sets angle 0, time 0, radius 8, height 3
immediately, and the completed fly-to brings the camera exactly to the
captured initial pose; but on completion syncAngleWithPosition
resynchronizes angle, radius and height from that pose by inverse
trigonometry, so the final orbit parameters are atan2 of the pose, the
planar norm of the pose and its y coordinate rather than 0, 8 and 3. -/
theorem reset_flyto_resyncs_from_initial_pose :
    ∀ s : CamAnim,
      (CamAnim.reset s).angle = 0 ∧
      (CamAnim.reset s).time = 0 ∧
      (CamAnim.reset s).radius = 8 ∧
      (CamAnim.reset s).height = 3 ∧
      (CamAnim.resetComplete s).cameraPos = s.initialPosition ∧
      (CamAnim.resetComplete s).angle = atan2 s.initialPosition.z s.initialPosition.x ∧
      (CamAnim.resetComplete s).radius =
        Real.sqrt (s.initialPosition.x * s.initialPosition.x +
                   s.initialPosition.z * s.initialPosition.z) ∧
      (CamAnim.resetComplete s).height = s.initialPosition.y := by
  intro s
  obtain ⟨h1, h2, h3, h4⟩ := resetComplete_spec s
  exact ⟨rfl, rfl, rfl, rfl, h1, h2, h3, h4⟩

/-- C4 as stated is false at a concrete input: an animator whose
rotation speed has been set to 0 does not round-trip through getState
and setState, because the JavaScript or-else default treats the falsy 0
as absent and restores 0.5. -/
theorem setState_getState_not_identity :
    (CamAnim.setState (CamAnim.setRotationSpeed (mkCameraAnimator ⟨5,3,5⟩ ⟨0,0,0⟩) 0)
        (CamAnim.getState (CamAnim.setRotationSpeed (mkCameraAnimator ⟨5,3,5⟩ ⟨0,0,0⟩) 0))).rotationSpeed
      = 1/2 ∧
    (CamAnim.setRotationSpeed (mkCameraAnimator ⟨5,3,5⟩ ⟨0,0,0⟩) 0).rotationSpeed = 0 ∧
    CamAnim.setState (CamAnim.setRotationSpeed (mkCameraAnimator ⟨5,3,5⟩ ⟨0,0,0⟩) 0)
        (CamAnim.getState (CamAnim.setRotationSpeed (mkCameraAnimator ⟨5,3,5⟩ ⟨0,0,0⟩) 0)) ≠
      CamAnim.setRotationSpeed (mkCameraAnimator ⟨5,3,5⟩ ⟨0,0,0⟩) 0 := by
  refine ⟨?_, rfl, ?_⟩
  · simp [CamAnim.setState, CamAnim.getState, CamAnim.setRotationSpeed, mkCameraAnimator, jsOr]
  · intro h
    have hc := congrArg CamAnim.rotationSpeed h
    simp [CamAnim.setState, CamAnim.getState, CamAnim.setRotationSpeed,
          mkCameraAnimator, jsOr] at hc

/-- C4 amended: the round trip setState after getState is the identity
on the whole animator state exactly on states whose rotationSpeed,
radius and height are nonzero (angle and time have default 0, and the
boolean passes through unchanged, so they always survive; a zero
rotationSpeed, radius or height is falsy in JavaScript and is replaced
by its default 0.5, 8 or 3). -/
theorem getState_setState_roundtrip (s : CamAnim) (h1 : s.rotationSpeed ≠ 0)
    (h2 : s.radius ≠ 0) (h3 : s.height ≠ 0) :
    CamAnim.setState s (CamAnim.getState s) = s := by
  cases s with
  | mk cp ct auto sp r hh a ip it t =>
    simp only [CamAnim.rotationSpeed] at h1
    simp only [CamAnim.radius] at h2
    simp only [CamAnim.height] at h3
    simp [CamAnim.setState, CamAnim.getState, jsOr_of_ne _ h1, jsOr_of_ne _ h2,
          jsOr_of_ne _ h3, jsOr_zero_right]

/-- Witness for the amended C4 at the constructed animator, whose
rotation speed 0.5, radius 8 and height 3 are all nonzero. -/
theorem getState_setState_roundtrip_witness :
    CamAnim.setState (mkCameraAnimator ⟨5,3,5⟩ ⟨0,0,0⟩)
        (CamAnim.getState (mkCameraAnimator ⟨5,3,5⟩ ⟨0,0,0⟩)) =
      mkCameraAnimator ⟨5,3,5⟩ ⟨0,0,0⟩ :=
  getState_setState_roundtrip (mkCameraAnimator ⟨5,3,5⟩ ⟨0,0,0⟩)
    (by norm_num [mkCameraAnimator]) (by norm_num [mkCameraAnimator])
    (by norm_num [mkCameraAnimator])

/-- C6: while auto-rotation is on the orbit angle never decreases
across ticks (and strictly increases for a positive delta and speed),
while it is off update leaves the whole state unchanged, and along any
sequence of nonnegative frame deltas from the constructed animator the
angle is monotone. -/
theorem auto_rotation_angle_monotone :
    (∀ (s : CamAnim) (dt : ℝ), 0 ≤ dt → 0 ≤ s.rotationSpeed →
      s.isAutoRotating = true → s.angle ≤ (s.update dt).angle) ∧
    (∀ (s : CamAnim) (dt : ℝ), 0 < dt → 0 < s.rotationSpeed →
      s.isAutoRotating = true → s.angle < (s.update dt).angle) ∧
    (∀ (s : CamAnim) (dt : ℝ), s.isAutoRotating = false → s.update dt = s) ∧
    (∀ (dts : List ℝ) (pos ctar : Vec3), (∀ d ∈ dts, 0 ≤ d) →
      (mkCameraAnimator pos ctar).angle ≤
        (dts.foldl CamAnim.update (mkCameraAnimator pos ctar)).angle) := by
  refine ⟨fun s dt hdt hsp _ => update_angle_mono s dt hdt hsp,
          fun s dt hdt hsp h => update_angle_strict s dt hdt hsp h,
          fun s dt h => update_not_rotating s dt h,
          fun dts pos ctar hd => foldl_update_angle_mono dts _ ?_ hd⟩
  norm_num [mkCameraAnimator]

/-- Witness for C6: one tick of length 1 from the constructed animator
does not decrease the angle, a paused animator is left unchanged by a
tick, and the two-tick trace is monotone. -/
theorem auto_rotation_angle_monotone_witness :
    (mkCameraAnimator ⟨5,3,5⟩ ⟨0,0,0⟩).angle ≤
      ((mkCameraAnimator ⟨5,3,5⟩ ⟨0,0,0⟩).update 1).angle ∧
    (CamAnim.pauseAutoRotation (mkCameraAnimator ⟨5,3,5⟩ ⟨0,0,0⟩)).update 1 =
      CamAnim.pauseAutoRotation (mkCameraAnimator ⟨5,3,5⟩ ⟨0,0,0⟩) ∧
    (mkCameraAnimator ⟨5,3,5⟩ ⟨0,0,0⟩).angle ≤
      (([1, 1] : List ℝ).foldl CamAnim.update (mkCameraAnimator ⟨5,3,5⟩ ⟨0,0,0⟩)).angle :=
  ⟨auto_rotation_angle_monotone.1 _ 1 (by norm_num) (by norm_num [mkCameraAnimator]) rfl,
   auto_rotation_angle_monotone.2.2.1 _ 1 rfl,
   auto_rotation_angle_monotone.2.2.2 [1, 1] ⟨5,3,5⟩ ⟨0,0,0⟩ (by norm_num)⟩

/-- C7: resuming autonomous motion resynchronizes angle, radius and
height from the camera position by inverse trigonometry, and for every
position with (x, z) different from (0, 0) the resynchronized
parameters reproduce that position: radius times cos angle is x,
radius times sin angle is z, and height is y. -/
theorem resume_resyncs_orbit (s : CamAnim)
    (h : ¬(s.cameraPos.x = 0 ∧ s.cameraPos.z = 0)) :
    (CamAnim.resumeAutoRotation s).radius *
        Real.cos (CamAnim.resumeAutoRotation s).angle = s.cameraPos.x ∧
    (CamAnim.resumeAutoRotation s).radius *
        Real.sin (CamAnim.resumeAutoRotation s).angle = s.cameraPos.z ∧
    (CamAnim.resumeAutoRotation s).height = s.cameraPos.y ∧
    (CamAnim.resumeAutoRotation s).isAutoRotating = true := by
  have hw : (⟨s.cameraPos.x, s.cameraPos.z⟩ : ℂ) ≠ 0 := by
    intro h0
    rw [Complex.ext_iff] at h0
    exact h ⟨by simpa using h0.1, by simpa using h0.2⟩
  have habs : Complex.abs ⟨s.cameraPos.x, s.cameraPos.z⟩ =
      Real.sqrt (s.cameraPos.x * s.cameraPos.x + s.cameraPos.z * s.cameraPos.z) := by
    rw [Complex.abs_apply, Complex.normSq_mk]
  have hane : Complex.abs ⟨s.cameraPos.x, s.cameraPos.z⟩ ≠ 0 := Complex.abs.ne_zero hw
  unfold CamAnim.resumeAutoRotation CamAnim.syncAngleWithPosition atan2
  refine ⟨?_, ?_, rfl, rfl⟩
  · show Real.sqrt (s.cameraPos.x * s.cameraPos.x + s.cameraPos.z * s.cameraPos.z) *
      Real.cos (Complex.arg ⟨s.cameraPos.x, s.cameraPos.z⟩) = s.cameraPos.x
    rw [← habs, Complex.cos_arg hw]
    field_simp
  · show Real.sqrt (s.cameraPos.x * s.cameraPos.x + s.cameraPos.z * s.cameraPos.z) *
      Real.sin (Complex.arg ⟨s.cameraPos.x, s.cameraPos.z⟩) = s.cameraPos.z
    rw [← habs, Complex.sin_arg]
    field_simp

/-- Witness for C7 at the constructed animator, whose camera sits at
(5, 3, 5), away from the vertical axis. -/
theorem resume_resyncs_orbit_witness :
    (CamAnim.resumeAutoRotation (mkCameraAnimator ⟨5,3,5⟩ ⟨0,0,0⟩)).radius *
        Real.cos (CamAnim.resumeAutoRotation (mkCameraAnimator ⟨5,3,5⟩ ⟨0,0,0⟩)).angle =
      (mkCameraAnimator ⟨5,3,5⟩ ⟨0,0,0⟩).cameraPos.x ∧
    (CamAnim.resumeAutoRotation (mkCameraAnimator ⟨5,3,5⟩ ⟨0,0,0⟩)).height =
      (mkCameraAnimator ⟨5,3,5⟩ ⟨0,0,0⟩).cameraPos.y := by
  have h := resume_resyncs_orbit (mkCameraAnimator ⟨5,3,5⟩ ⟨0,0,0⟩)
    (by norm_num [mkCameraAnimator])
  exact ⟨h.1, h.2.2.1⟩
